import Mathlib

/-!
Verification of the URL-availability checker (`src/core/checker.py`).

Shallow embedding of `URLChecker` and its methods `check_url`,
`safe_check_url` and `check_urls`. Network I/O is abstracted by an
*oracle* `Nat → AttemptOutcome` giving, for each attempt number
(numbered 1, 2, ...), the outcome the `self._session.get(...)` call
would produce on that attempt, together with the wall-clock duration
that attempt consumes. All other control flow (the retry loop, the
exception dispatch of the `except` clauses in source order, the metric
updates, the URL-dedup set, the `tenacity` decorator) is translated
directly from the source.

Input URLs are taken as plain strings: the claims under study restrict
inputs to syntactically valid URLs, so pydantic's `HttpUrl` validation
never fires and is not modelled.
-/

set_option maxHeartbeats 1000000

namespace Checker

/-- Outcome of one `session.get` attempt, as classified by the `except`
clauses of `URLChecker.check_url` (checker.py lines 158-233), plus the
duration the attempt consumed (abstract time units, read off the
`time.time()` clock). `success` carries the data of the response
object: status, `response.url` (`None` when falsy, mirroring
`str(response.url) if response.url else None`), and the headers dict. -/
inductive AttemptOutcome where
  | success (status : Nat) (finalUrl : Option String)
      (hdrs : List (String × String)) (d : Nat)
  | tooManyRedirects (detail : String) (d : Nat)
  | timeout (d : Nat)
  | networkError (detail : String) (d : Nat)
  | sslError (detail : String) (d : Nat)
  | otherError (detail : String) (d : Nat)
  deriving Repr, DecidableEq

/-- Duration consumed by an attempt. -/
def AttemptOutcome.dur : AttemptOutcome → Nat
  | .success _ _ _ d => d
  | .tooManyRedirects _ d => d
  | .timeout d => d
  | .networkError _ d => d
  | .sslError _ d => d
  | .otherError _ d => d

/-- Outcomes on which `check_url`'s loop may `continue` to another
attempt: timeouts, network-layer errors and unclassified errors.
Redirect exhaustion, TLS errors and success always terminate the loop. -/
def AttemptOutcome.retryable : AttemptOutcome → Bool
  | .timeout _ => true
  | .networkError _ _ => true
  | .otherError _ _ => true
  | _ => false

/-- Predicate true only for the unclassified-error outcome. -/
def AttemptOutcome.isOther : AttemptOutcome → Bool
  | .otherError _ _ => true
  | _ => false

/-- The pydantic `URLResponse` model (checker.py lines 15-26); fields
absent in a given construction default to `none`, as in pydantic.
`response_time` is in the same abstract time units as attempt
durations. -/
structure URLResponse where
  url : String
  status : Nat
  is_available : Bool
  final_url : Option String := none
  error : Option String := none
  headers : Option (List (String × String)) := none
  content_type : Option String := none
  response_time : Option Nat := none
  retry_count : Option Nat := none
  deriving Repr, DecidableEq

/-- The `_metrics` dictionary (checker.py lines 52-61). -/
structure Metrics where
  total_requests : Nat := 0
  unique_requests : Nat := 0
  successful_requests : Nat := 0
  failed_requests : Nat := 0
  timeout_errors : Nat := 0
  network_errors : Nat := 0
  ssl_errors : Nat := 0
  other_errors : Nat := 0
  deriving Repr, DecidableEq

/-- Mutable state of a `URLChecker` instance: the metrics dict, the
`_unique_urls` dedup set (as a duplicate-free list), and whether
`_session` is non-`None` (set by `__aenter__`). -/
structure CheckerState where
  metrics : Metrics := {}
  unique_urls : List String := []
  session_initialized : Bool := true
  deriving Repr, DecidableEq

/-- Constructor configuration (checker.py lines 32-47). `timeout`,
`headers` and `max_redirects_count` only parameterize the `session.get`
call, which the oracle abstracts; the three `retry_*` fields are stored
by `__init__` and appear in no other statement of the class. -/
structure Config where
  timeout : Nat := 5
  max_retries : Nat := 3
  retry_multiplier : Rat := 1
  retry_min_delay : Rat := 4
  retry_max_delay : Rat := 10
  max_redirects_count : Nat := 20
  deriving Repr, DecidableEq

/-- The only exception `check_url`'s body can raise past its own
`except` clauses: the `RuntimeError` thrown when `_session` is `None`
(checker.py lines 145-148). -/
inductive PyExc where
  | runtimeError (msg : String)
  deriving Repr, DecidableEq

/-- The `str(e)` rendering of the exceptions we model. -/
def PyExc.message : PyExc → String
  | .runtimeError m => m

def incTotal (st : CheckerState) : CheckerState :=
  { st with metrics :=
      { st.metrics with total_requests := st.metrics.total_requests + 1 } }

def incSuccessful (st : CheckerState) : CheckerState :=
  { st with metrics :=
      { st.metrics with successful_requests := st.metrics.successful_requests + 1 } }

def incFailed (st : CheckerState) : CheckerState :=
  { st with metrics :=
      { st.metrics with failed_requests := st.metrics.failed_requests + 1 } }

def incTimeout (st : CheckerState) : CheckerState :=
  { st with metrics :=
      { st.metrics with timeout_errors := st.metrics.timeout_errors + 1 } }

def incNetwork (st : CheckerState) : CheckerState :=
  { st with metrics :=
      { st.metrics with network_errors := st.metrics.network_errors + 1 } }

def incSsl (st : CheckerState) : CheckerState :=
  { st with metrics :=
      { st.metrics with ssl_errors := st.metrics.ssl_errors + 1 } }

def incOther (st : CheckerState) : CheckerState :=
  { st with metrics :=
      { st.metrics with other_errors := st.metrics.other_errors + 1 } }

/-- Model of `dict(response.headers).get("content-type")`: exact-key lookup in
the headers mapping. -/
def getHeader (hdrs : List (String × String)) (name : String) : Option String :=
  (hdrs.find? (fun p => p.1 == name)).map (fun p => p.2)

/-- Lines 150-152: add the URL to `_unique_urls` and bump
`unique_requests` if it was not seen before. -/
def noteUnique (st : CheckerState) (url : String) : CheckerState :=
  if url ∈ st.unique_urls then st
  else { st with
    unique_urls := url :: st.unique_urls,
    metrics := { st.metrics with
      unique_requests := st.metrics.unique_requests + 1 } }

/-- The `for attempt in range(1, self.max_retries + 1)` loop of
`check_url` (checker.py lines 155-244), compiled to structural
recursion on the number of remaining loop iterations (`fuel`).
`check_url` enters with `fuel = max_retries` and `attempt = 1`; on each
iteration `fuel` decreases as `attempt` increases, so `fuel = 0`
corresponds to falling off the end of the loop (lines 234-244) and
`fuel = 1` corresponds to the source's `attempt == self.max_retries`
test for the last allowed attempt. The branches are, in source order:
response obtained (166-178); `aiohttp.TooManyRedirects` (179-191) —
note the nested `isinstance(e_client, TooManyRedirects)` re-check at
lines 194-199 is unreachable, since Python dispatches to the *first*
matching `except` clause; `asyncio.TimeoutError` / `aiohttp.ClientError`
(192-214); `ssl.SSLError` (215-222); generic `Exception` (223-233) —
whose `other_errors` increment at line 225 precedes the last-attempt
test. `elapsed` is `time.time() - start_time` accumulated so far. -/
def checkLoop (cfg : Config) (url : String) (oracle : Nat → AttemptOutcome) :
    Nat → Nat → Nat → CheckerState → URLResponse × CheckerState
  | 0, _attempt, elapsed, st =>
    ({ url := url, status := 0, is_available := false, final_url := none,
       error := some "Unknown error", response_time := some elapsed,
       retry_count := some cfg.max_retries }, incFailed st)
  | f + 1, attempt, elapsed, st =>
    let st1 := incTotal st
    match oracle attempt with
    | .success status finalUrl hdrs d =>
      ({ url := url, status := status,
         is_available := decide (200 ≤ status ∧ status < 400),
         final_url := finalUrl, error := none, headers := some hdrs,
         content_type := getHeader hdrs "content-type",
         response_time := some (elapsed + d),
         retry_count := some (attempt - 1) }, incSuccessful st1)
    | .tooManyRedirects detail d =>
      ({ url := url, status := 0, is_available := false, final_url := none,
         error := some ("Too many redirects: " ++ detail),
         response_time := some (elapsed + d),
         retry_count := some (attempt - 1) }, incFailed st1)
    | .timeout d =>
      if f = 0 then
        ({ url := url, status := 0, is_available := false, final_url := none,
           error := some "Timeout", response_time := some (elapsed + d),
           retry_count := some cfg.max_retries },
         incFailed (incTimeout st1))
      else checkLoop cfg url oracle f (attempt + 1) (elapsed + d) st1
    | .networkError detail d =>
      if f = 0 then
        ({ url := url, status := 0, is_available := false, final_url := none,
           error := some ("Network error: " ++ detail),
           response_time := some (elapsed + d),
           retry_count := some cfg.max_retries },
         incFailed (incNetwork st1))
      else checkLoop cfg url oracle f (attempt + 1) (elapsed + d) st1
    | .sslError detail d =>
      ({ url := url, status := 0, is_available := false, final_url := none,
         error := some ("SSL error: " ++ detail),
         response_time := some (elapsed + d),
         retry_count := some (attempt - 1) }, incSsl st1)
    | .otherError detail d =>
      let st2 := incOther st1
      if f = 0 then
        ({ url := url, status := 0, is_available := false, final_url := none,
           error := some detail, response_time := some (elapsed + d),
           retry_count := some cfg.max_retries }, st2)
      else checkLoop cfg url oracle f (attempt + 1) (elapsed + d) st2

/-- The undecorated body of `check_url` (checker.py lines 141-244):
raise `RuntimeError` when `_session` is `None`, otherwise update the
dedup set and run the attempt loop from attempt 1 with a fresh clock. -/
def checkURLBody (cfg : Config) (st : CheckerState) (url : String)
    (oracle : Nat → AttemptOutcome) :
    Except PyExc URLResponse × CheckerState :=
  if st.session_initialized then
    let st1 := noteUnique st url
    let r := checkLoop cfg url oracle cfg.max_retries 1 0 st1
    (.ok r.1, r.2)
  else
    (.error (.runtimeError "Session not initialized. Use async with context manager"), st)

/-- Model of `tenacity.wait_exponential(multiplier, min, max)`: the delay before
retrying after failed attempt `n` is `multiplier * 2 ^ (n - 1)` clamped
into `[min, max]`. -/
def waitExponential (multiplier lo hi : Rat) (n : Nat) : Rat :=
  min hi (max lo (multiplier * 2 ^ (n - 1)))

/-- The predicate `retry_if_exception_type((aiohttp.ClientError, asyncio.TimeoutError))`
applied to the body's possible exceptions: `RuntimeError` is neither, so
it is never retried by the decorator. -/
def tenacityRetries : PyExc → Bool
  | .runtimeError _ => false

/-- The `@retry(...)` decorator (checker.py lines 135-140): run the
body; on an exception, if the exception type is retryable and retries
remain, sleep the wait-policy delay and run the body again, else
re-raise (`reraise=True`). `remaining` counts the retries still allowed
(`stop_after_attempt(3)` means the initial call gets `remaining = 2`),
so on an exception with none remaining the exception is re-raised.
The returned list records the sleeps performed, in order. -/
def tenacityGo (retries : PyExc → Bool) (wait : Nat → Rat)
    (body : CheckerState → Except PyExc URLResponse × CheckerState) :
    Nat → Nat → CheckerState → List Rat →
    Except PyExc URLResponse × CheckerState × List Rat
  | remaining, attempt, st, sleeps =>
    match body st with
    | (.ok res, st1) => (.ok res, st1, sleeps)
    | (.error e, st1) =>
      match remaining with
      | 0 => (.error e, st1, sleeps)
      | r + 1 =>
        if retries e then
          tenacityGo retries wait body r (attempt + 1) st1
            (sleeps ++ [wait attempt])
        else (.error e, st1, sleeps)

/-- Model of `URLChecker.check_url`: the body under its `tenacity` decorator
`@retry(stop=stop_after_attempt(3), wait=wait_exponential(multiplier=1.0,
min=4.0, max=10.0), retry=retry_if_exception_type((aiohttp.ClientError,
asyncio.TimeoutError)), reraise=True)`. Note the decorator's wait
parameters are the literals `1.0/4.0/10.0`, not the instance's
configured `retry_*` fields (a decorator cannot read `self`). Returns
the result or raised exception, the updated instance state, and the
list of sleeps the decorator performed. -/
def check_url (cfg : Config) (st : CheckerState) (url : String)
    (oracle : Nat → AttemptOutcome) :
    Except PyExc URLResponse × CheckerState × List Rat :=
  tenacityGo tenacityRetries (waitExponential 1 4 10)
    (fun s => checkURLBody cfg s url oracle) 2 1 st []

/-- Model of `URLChecker.safe_check_url` (checker.py lines 246-261): call
`check_url`; convert any exception into a terminal `URLResponse` with
`status=0`, `error=str(e)`, `retry_count=max_retries`, bumping
`failed_requests`. The fields not named at lines 254-261 (`headers`,
`content_type`, `response_time`) default to `None`. -/
def safe_check_url (cfg : Config) (st : CheckerState) (url : String)
    (oracle : Nat → AttemptOutcome) :
    URLResponse × CheckerState × List Rat :=
  match check_url cfg st url oracle with
  | (.ok r, st1, sleeps) => (r, st1, sleeps)
  | (.error e, st1, sleeps) =>
    ({ url := url, status := 0, is_available := false, final_url := none,
       error := some e.message, retry_count := some cfg.max_retries },
     incFailed st1, sleeps)

/-- Model of `URLChecker.check_urls` (checker.py lines 263-274):
`asyncio.gather` over one `safe_check_url` task per URL, results in
input order. The shared mutable instance state is threaded through the
tasks sequentially (the event loop interleaves only at await points;
the positional result list is the same either way since a task's
`URLResponse` does not depend on the metrics). Each URL brings its own
attempt oracle. -/
def check_urls (cfg : Config) (st : CheckerState)
    (tasks : List (String × (Nat → AttemptOutcome))) :
    List URLResponse × CheckerState :=
  match tasks with
  | [] => ([], st)
  | (url, oracle) :: rest =>
    let r := safe_check_url cfg st url oracle
    let rs := check_urls cfg r.2.1 rest
    (r.1 :: rs.1, rs.2)

/-! Section: Derived quantities used to state the claims -/

/-- Sum of the durations of `n` consecutive attempts starting at
attempt number `a`. -/
def sumDur (oracle : Nat → AttemptOutcome) : Nat → Nat → Nat
  | _a, 0 => 0
  | a, n + 1 => (oracle a).dur + sumDur oracle (a + 1) n

/-- Effect on the instance state of one *retried* (non-terminal)
attempt: every attempt bumps `total_requests` (line 156), and a retried
unclassified error additionally bumps `other_errors` (line 225). -/
def applyRetry (o : AttemptOutcome) (st : CheckerState) : CheckerState :=
  match o with
  | .otherError _ _ => incOther (incTotal st)
  | _ => incTotal st

/-- State after `n` consecutive retried attempts starting at attempt
number `a`. -/
def retryFold (oracle : Nat → AttemptOutcome) : Nat → Nat → CheckerState → CheckerState
  | _a, 0, st => st
  | a, n + 1, st => retryFold oracle (a + 1) n (applyRetry (oracle a) st)

/-- Number of unclassified-error outcomes among `n` consecutive
attempts starting at attempt number `a`. -/
def countOther (oracle : Nat → AttemptOutcome) : Nat → Nat → Nat
  | _a, 0 => 0
  | a, n + 1 =>
    (if (oracle a).isOther then 1 else 0) + countOther oracle (a + 1) n

/-- Number of attempts the loop performs before producing its terminal
outcome, given `fuel` remaining iterations starting at attempt number
`attempt`; mirrors the control flow of `checkLoop`. -/
def attemptsUsedLoop (oracle : Nat → AttemptOutcome) : Nat → Nat → Nat
  | 0, _attempt => 0
  | f + 1, attempt =>
    match oracle attempt with
    | .timeout _ =>
      if f = 0 then 1 else attemptsUsedLoop oracle f (attempt + 1) + 1
    | .networkError _ _ =>
      if f = 0 then 1 else attemptsUsedLoop oracle f (attempt + 1) + 1
    | .otherError _ _ =>
      if f = 0 then 1 else attemptsUsedLoop oracle f (attempt + 1) + 1
    | _ => 1

/-- Number of attempts a `check_url` call performs on this oracle. -/
def attemptsUsed (cfg : Config) (oracle : Nat → AttemptOutcome) : Nat :=
  attemptsUsedLoop oracle cfg.max_retries 1

/-- A sequence of `check_url` calls on one instance, threading the
state; used to state lifetime properties of the metrics. -/
def runChecks (cfg : Config) (st : CheckerState)
    (calls : List (String × (Nat → AttemptOutcome))) : CheckerState :=
  match calls with
  | [] => st
  | (url, oracle) :: rest =>
    runChecks cfg (check_url cfg st url oracle).2.1 rest

/-- State of a freshly constructed instance after `__aenter__`:
zeroed metrics, empty dedup set, session open. -/
def initState : CheckerState := {}

/-! Section: Concrete inputs used to instantiate the theorems -/

/-- Oracle reading attempt outcomes off a finite script: attempt `n`
takes entry `n - 1`. -/
def oracleOf (outs : List AttemptOutcome) : Nat → AttemptOutcome :=
  fun n => outs.getD (n - 1) (.otherError "off script" 0)

/-- A checker configured with `max_retries = 2`. -/
def cfgTwo : Config := { max_retries := 2 }

/-- A checker with the default configuration (`max_retries = 3`). -/
def cfgDflt : Config := {}

/-- An instance whose session was never initialized (no `async with`). -/
def stNoSession : CheckerState := { session_initialized := false }

/-- A representative successful response outcome. -/
def okOutcome : AttemptOutcome :=
  .success 200 (some "http://example.com/") [("content-type", "text/html")] 1

/-! Section: Helper lemmas: effect of retried attempts -/

theorem applyRetry_total (o : AttemptOutcome) (st : CheckerState) :
    (applyRetry o st).metrics.total_requests = st.metrics.total_requests + 1 := by
  cases o <;> rfl

theorem applyRetry_other (o : AttemptOutcome) (st : CheckerState) :
    (applyRetry o st).metrics.other_errors =
      st.metrics.other_errors + (if o.isOther then 1 else 0) := by
  cases o <;> rfl

theorem applyRetry_successful (o : AttemptOutcome) (st : CheckerState) :
    (applyRetry o st).metrics.successful_requests = st.metrics.successful_requests := by
  cases o <;> rfl

theorem applyRetry_failed (o : AttemptOutcome) (st : CheckerState) :
    (applyRetry o st).metrics.failed_requests = st.metrics.failed_requests := by
  cases o <;> rfl

theorem applyRetry_timeoutErr (o : AttemptOutcome) (st : CheckerState) :
    (applyRetry o st).metrics.timeout_errors = st.metrics.timeout_errors := by
  cases o <;> rfl

theorem applyRetry_networkErr (o : AttemptOutcome) (st : CheckerState) :
    (applyRetry o st).metrics.network_errors = st.metrics.network_errors := by
  cases o <;> rfl

theorem applyRetry_sslErr (o : AttemptOutcome) (st : CheckerState) :
    (applyRetry o st).metrics.ssl_errors = st.metrics.ssl_errors := by
  cases o <;> rfl

theorem applyRetry_uniqueReq (o : AttemptOutcome) (st : CheckerState) :
    (applyRetry o st).metrics.unique_requests = st.metrics.unique_requests := by
  cases o <;> rfl

theorem applyRetry_uniqueUrls (o : AttemptOutcome) (st : CheckerState) :
    (applyRetry o st).unique_urls = st.unique_urls := by
  cases o <;> rfl

theorem applyRetry_session (o : AttemptOutcome) (st : CheckerState) :
    (applyRetry o st).session_initialized = st.session_initialized := by
  cases o <;> rfl

theorem retryFold_total (oracle : Nat → AttemptOutcome) :
    ∀ n a st, (retryFold oracle a n st).metrics.total_requests =
      st.metrics.total_requests + n := by
  intro n
  induction n with
  | zero => intro a st; rfl
  | succ n ih =>
    intro a st
    rw [retryFold, ih, applyRetry_total]
    omega

theorem retryFold_other (oracle : Nat → AttemptOutcome) :
    ∀ n a st, (retryFold oracle a n st).metrics.other_errors =
      st.metrics.other_errors + countOther oracle a n := by
  intro n
  induction n with
  | zero => intro a st; rfl
  | succ n ih =>
    intro a st
    rw [retryFold, ih, applyRetry_other, countOther]
    omega

theorem retryFold_successful (oracle : Nat → AttemptOutcome) :
    ∀ n a st, (retryFold oracle a n st).metrics.successful_requests =
      st.metrics.successful_requests := by
  intro n
  induction n with
  | zero => intro a st; rfl
  | succ n ih => intro a st; rw [retryFold, ih, applyRetry_successful]

theorem retryFold_failed (oracle : Nat → AttemptOutcome) :
    ∀ n a st, (retryFold oracle a n st).metrics.failed_requests =
      st.metrics.failed_requests := by
  intro n
  induction n with
  | zero => intro a st; rfl
  | succ n ih => intro a st; rw [retryFold, ih, applyRetry_failed]

theorem retryFold_timeoutErr (oracle : Nat → AttemptOutcome) :
    ∀ n a st, (retryFold oracle a n st).metrics.timeout_errors =
      st.metrics.timeout_errors := by
  intro n
  induction n with
  | zero => intro a st; rfl
  | succ n ih => intro a st; rw [retryFold, ih, applyRetry_timeoutErr]

theorem retryFold_networkErr (oracle : Nat → AttemptOutcome) :
    ∀ n a st, (retryFold oracle a n st).metrics.network_errors =
      st.metrics.network_errors := by
  intro n
  induction n with
  | zero => intro a st; rfl
  | succ n ih => intro a st; rw [retryFold, ih, applyRetry_networkErr]

theorem retryFold_sslErr (oracle : Nat → AttemptOutcome) :
    ∀ n a st, (retryFold oracle a n st).metrics.ssl_errors =
      st.metrics.ssl_errors := by
  intro n
  induction n with
  | zero => intro a st; rfl
  | succ n ih => intro a st; rw [retryFold, ih, applyRetry_sslErr]

theorem retryFold_uniqueReq (oracle : Nat → AttemptOutcome) :
    ∀ n a st, (retryFold oracle a n st).metrics.unique_requests =
      st.metrics.unique_requests := by
  intro n
  induction n with
  | zero => intro a st; rfl
  | succ n ih => intro a st; rw [retryFold, ih, applyRetry_uniqueReq]

theorem retryFold_uniqueUrls (oracle : Nat → AttemptOutcome) :
    ∀ n a st, (retryFold oracle a n st).unique_urls = st.unique_urls := by
  intro n
  induction n with
  | zero => intro a st; rfl
  | succ n ih => intro a st; rw [retryFold, ih, applyRetry_uniqueUrls]

theorem retryFold_session (oracle : Nat → AttemptOutcome) :
    ∀ n a st, (retryFold oracle a n st).session_initialized =
      st.session_initialized := by
  intro n
  induction n with
  | zero => intro a st; rfl
  | succ n ih => intro a st; rw [retryFold, ih, applyRetry_session]

/-! Section: Helper lemmas: running the loop across a retried prefix -/

theorem checkLoop_skip_one (cfg : Config) (url : String)
    (oracle : Nat → AttemptOutcome) (f attempt elapsed : Nat)
    (st : CheckerState) (h : (oracle attempt).retryable = true) :
    checkLoop cfg url oracle (f + 2) attempt elapsed st =
      checkLoop cfg url oracle (f + 1) (attempt + 1)
        (elapsed + (oracle attempt).dur) (applyRetry (oracle attempt) st) := by
  cases ho : oracle attempt with
  | timeout d => simp [checkLoop, ho, applyRetry, AttemptOutcome.dur]
  | networkError detail d => simp [checkLoop, ho, applyRetry, AttemptOutcome.dur]
  | otherError detail d => simp [checkLoop, ho, applyRetry, AttemptOutcome.dur]
  | success status finalUrl hdrs d => rw [ho] at h; simp [AttemptOutcome.retryable] at h
  | tooManyRedirects detail d => rw [ho] at h; simp [AttemptOutcome.retryable] at h
  | sslError detail d => rw [ho] at h; simp [AttemptOutcome.retryable] at h

theorem checkLoop_skip (cfg : Config) (url : String)
    (oracle : Nat → AttemptOutcome) :
    ∀ n f attempt elapsed st,
      (∀ j, attempt ≤ j → j < attempt + n → (oracle j).retryable = true) →
      checkLoop cfg url oracle (n + f + 1) attempt elapsed st =
        checkLoop cfg url oracle (f + 1) (attempt + n)
          (elapsed + sumDur oracle attempt n) (retryFold oracle attempt n st) := by
  intro n
  induction n with
  | zero =>
    intro f attempt elapsed st _
    simp [sumDur, retryFold]
  | succ n ih =>
    intro f attempt elapsed st hret
    have h0 : (oracle attempt).retryable = true := hret attempt le_rfl (by omega)
    have e1 : n + 1 + f + 1 = n + f + 2 := by omega
    rw [e1, checkLoop_skip_one cfg url oracle (n + f) attempt elapsed st h0]
    have e2 : n + f + 1 = n + f + 1 := rfl
    rw [ih f (attempt + 1) (elapsed + (oracle attempt).dur)
      (applyRetry (oracle attempt) st)
      (fun j hj1 hj2 => hret j (by omega) (by omega))]
    have e3 : attempt + (n + 1) = attempt + 1 + n := by omega
    have e4 : sumDur oracle attempt (n + 1) =
        (oracle attempt).dur + sumDur oracle (attempt + 1) n := rfl
    have e5 : retryFold oracle attempt (n + 1) st =
        retryFold oracle (attempt + 1) n (applyRetry (oracle attempt) st) := rfl
    rw [e3, e4, e5, ← Nat.add_assoc]

/-! Section: Helper lemmas: timing, attempt counting and preserved fields -/

theorem checkLoop_time_total (cfg : Config) (url : String)
    (oracle : Nat → AttemptOutcome) :
    ∀ f attempt elapsed st,
      (checkLoop cfg url oracle f attempt elapsed st).1.response_time =
          some (elapsed + sumDur oracle attempt (attemptsUsedLoop oracle f attempt)) ∧
        (checkLoop cfg url oracle f attempt elapsed st).2.metrics.total_requests =
          st.metrics.total_requests + attemptsUsedLoop oracle f attempt := by
  intro f
  induction f with
  | zero => intro attempt elapsed st; exact ⟨rfl, rfl⟩
  | succ f ih =>
    intro attempt elapsed st
    cases ho : oracle attempt with
    | success status finalUrl hdrs d =>
      constructor <;>
        simp [checkLoop, ho, attemptsUsedLoop, sumDur, AttemptOutcome.dur,
          incTotal, incSuccessful]
    | tooManyRedirects detail d =>
      constructor <;>
        simp [checkLoop, ho, attemptsUsedLoop, sumDur, AttemptOutcome.dur,
          incTotal, incFailed]
    | sslError detail d =>
      constructor <;>
        simp [checkLoop, ho, attemptsUsedLoop, sumDur, AttemptOutcome.dur,
          incTotal, incSsl]
    | timeout d =>
      by_cases hf : f = 0
      · subst hf
        constructor <;>
          simp [checkLoop, ho, attemptsUsedLoop, sumDur, AttemptOutcome.dur,
            incTotal, incTimeout, incFailed]
      · have hrec := ih (attempt + 1) (elapsed + d) (incTotal st)
        constructor
        · rw [checkLoop]
          rw [ho]  -- reduce the match on the oracle
          simp only [if_neg hf]
          rw [hrec.1]
          simp only [attemptsUsedLoop, ho, if_neg hf]
          have : sumDur oracle attempt (attemptsUsedLoop oracle f (attempt + 1) + 1) =
              (oracle attempt).dur + sumDur oracle (attempt + 1)
                (attemptsUsedLoop oracle f (attempt + 1)) := rfl
          rw [this, ho]
          simp [AttemptOutcome.dur, Nat.add_assoc]
        · rw [checkLoop]
          rw [ho]
          simp only [if_neg hf]
          rw [hrec.2]
          simp only [attemptsUsedLoop, ho, if_neg hf]
          simp [incTotal]
          omega
    | networkError detail d =>
      by_cases hf : f = 0
      · subst hf
        constructor <;>
          simp [checkLoop, ho, attemptsUsedLoop, sumDur, AttemptOutcome.dur,
            incTotal, incNetwork, incFailed]
      · have hrec := ih (attempt + 1) (elapsed + d) (incTotal st)
        constructor
        · rw [checkLoop]
          rw [ho]
          simp only [if_neg hf]
          rw [hrec.1]
          simp only [attemptsUsedLoop, ho, if_neg hf]
          have : sumDur oracle attempt (attemptsUsedLoop oracle f (attempt + 1) + 1) =
              (oracle attempt).dur + sumDur oracle (attempt + 1)
                (attemptsUsedLoop oracle f (attempt + 1)) := rfl
          rw [this, ho]
          simp [AttemptOutcome.dur, Nat.add_assoc]
        · rw [checkLoop]
          rw [ho]
          simp only [if_neg hf]
          rw [hrec.2]
          simp only [attemptsUsedLoop, ho, if_neg hf]
          simp [incTotal]
          omega
    | otherError detail d =>
      by_cases hf : f = 0
      · subst hf
        constructor <;>
          simp [checkLoop, ho, attemptsUsedLoop, sumDur, AttemptOutcome.dur,
            incTotal, incOther]
      · have hrec := ih (attempt + 1) (elapsed + d) (incOther (incTotal st))
        constructor
        · rw [checkLoop]
          rw [ho]
          simp only [if_neg hf]
          rw [hrec.1]
          simp only [attemptsUsedLoop, ho, if_neg hf]
          have : sumDur oracle attempt (attemptsUsedLoop oracle f (attempt + 1) + 1) =
              (oracle attempt).dur + sumDur oracle (attempt + 1)
                (attemptsUsedLoop oracle f (attempt + 1)) := rfl
          rw [this, ho]
          simp [AttemptOutcome.dur, Nat.add_assoc]
        · rw [checkLoop]
          rw [ho]
          simp only [if_neg hf]
          rw [hrec.2]
          simp only [attemptsUsedLoop, ho, if_neg hf]
          simp [incTotal, incOther]
          omega

theorem checkLoop_preserve (cfg : Config) (url : String)
    (oracle : Nat → AttemptOutcome) :
    ∀ f attempt elapsed st,
      (checkLoop cfg url oracle f attempt elapsed st).2.unique_urls = st.unique_urls ∧
        (checkLoop cfg url oracle f attempt elapsed st).2.session_initialized =
          st.session_initialized ∧
        (checkLoop cfg url oracle f attempt elapsed st).2.metrics.unique_requests =
          st.metrics.unique_requests := by
  intro f
  induction f with
  | zero => intro attempt elapsed st; exact ⟨rfl, rfl, rfl⟩
  | succ f ih =>
    intro attempt elapsed st
    cases ho : oracle attempt with
    | success status finalUrl hdrs d =>
      refine ⟨?_, ?_, ?_⟩ <;> simp [checkLoop, ho, incTotal, incSuccessful]
    | tooManyRedirects detail d =>
      refine ⟨?_, ?_, ?_⟩ <;> simp [checkLoop, ho, incTotal, incFailed]
    | sslError detail d =>
      refine ⟨?_, ?_, ?_⟩ <;> simp [checkLoop, ho, incTotal, incSsl]
    | timeout d =>
      by_cases hf : f = 0
      · subst hf
        refine ⟨?_, ?_, ?_⟩ <;>
          simp [checkLoop, ho, incTotal, incTimeout, incFailed]
      · have hrec := ih (attempt + 1) (elapsed + d) (incTotal st)
        refine ⟨?_, ?_, ?_⟩ <;>
          · rw [checkLoop]
            rw [ho]
            simp only [if_neg hf]
            first
              | exact hrec.1
              | exact hrec.2.1
              | exact hrec.2.2
    | networkError detail d =>
      by_cases hf : f = 0
      · subst hf
        refine ⟨?_, ?_, ?_⟩ <;>
          simp [checkLoop, ho, incTotal, incNetwork, incFailed]
      · have hrec := ih (attempt + 1) (elapsed + d) (incTotal st)
        refine ⟨?_, ?_, ?_⟩ <;>
          · rw [checkLoop]
            rw [ho]
            simp only [if_neg hf]
            first
              | exact hrec.1
              | exact hrec.2.1
              | exact hrec.2.2
    | otherError detail d =>
      by_cases hf : f = 0
      · subst hf
        refine ⟨?_, ?_, ?_⟩ <;>
          simp [checkLoop, ho, incTotal, incOther]
      · have hrec := ih (attempt + 1) (elapsed + d) (incOther (incTotal st))
        refine ⟨?_, ?_, ?_⟩ <;>
          · rw [checkLoop]
            rw [ho]
            simp only [if_neg hf]
            first
              | exact hrec.1
              | exact hrec.2.1
              | exact hrec.2.2

/-! Section: helper lemmas seeing through the tenacity decorator.

The decorator retries only `aiohttp.ClientError` / `asyncio.TimeoutError`,
but the body traps both inside its own loop; the only exception the body
can raise is the session-not-initialized `RuntimeError`, which the
decorator re-raises without retrying or sleeping. Hence the decorated
`check_url` behaves exactly like its body and performs no sleeps. -/

theorem check_url_eq (cfg : Config) (st : CheckerState) (url : String)
    (oracle : Nat → AttemptOutcome) :
    check_url cfg st url oracle =
      ((checkURLBody cfg st url oracle).1,
       (checkURLBody cfg st url oracle).2, ([] : List Rat)) := by
  rcases hb : checkURLBody cfg st url oracle with ⟨r, st1⟩
  cases r with
  | ok v => simp [check_url, tenacityGo, hb]
  | error e =>
    cases e with
    | runtimeError m => simp [check_url, tenacityGo, hb, tenacityRetries]

theorem check_url_of_session (cfg : Config) (st : CheckerState) (url : String)
    (oracle : Nat → AttemptOutcome) (h : st.session_initialized = true) :
    check_url cfg st url oracle =
      (Except.ok (checkLoop cfg url oracle cfg.max_retries 1 0 (noteUnique st url)).1,
       (checkLoop cfg url oracle cfg.max_retries 1 0 (noteUnique st url)).2,
       ([] : List Rat)) := by
  rw [check_url_eq]
  simp [checkURLBody, h]

theorem check_url_of_noSession (cfg : Config) (st : CheckerState) (url : String)
    (oracle : Nat → AttemptOutcome) (h : st.session_initialized = false) :
    check_url cfg st url oracle =
      (Except.error
        (.runtimeError "Session not initialized. Use async with context manager"),
       st, ([] : List Rat)) := by
  rw [check_url_eq]
  simp [checkURLBody, h]

theorem safe_check_url_of_session (cfg : Config) (st : CheckerState) (url : String)
    (oracle : Nat → AttemptOutcome) (h : st.session_initialized = true) :
    safe_check_url cfg st url oracle =
      ((checkLoop cfg url oracle cfg.max_retries 1 0 (noteUnique st url)).1,
       (checkLoop cfg url oracle cfg.max_retries 1 0 (noteUnique st url)).2,
       ([] : List Rat)) := by
  simp [safe_check_url, check_url_of_session cfg st url oracle h]

theorem safe_check_url_of_noSession (cfg : Config) (st : CheckerState) (url : String)
    (oracle : Nat → AttemptOutcome) (h : st.session_initialized = false) :
    safe_check_url cfg st url oracle =
      ({ url := url, status := 0, is_available := false, final_url := none,
         error := some "Session not initialized. Use async with context manager",
         retry_count := some cfg.max_retries },
       incFailed st, ([] : List Rat)) := by
  simp [safe_check_url, check_url_of_noSession cfg st url oracle h, PyExc.message]

/-! Section: Helper lemmas: the dedup-set update and the result URL field -/

theorem noteUnique_total (st : CheckerState) (url : String) :
    (noteUnique st url).metrics.total_requests = st.metrics.total_requests := by
  unfold noteUnique; split <;> rfl

theorem noteUnique_successful (st : CheckerState) (url : String) :
    (noteUnique st url).metrics.successful_requests =
      st.metrics.successful_requests := by
  unfold noteUnique; split <;> rfl

theorem noteUnique_failed (st : CheckerState) (url : String) :
    (noteUnique st url).metrics.failed_requests = st.metrics.failed_requests := by
  unfold noteUnique; split <;> rfl

theorem noteUnique_timeoutErr (st : CheckerState) (url : String) :
    (noteUnique st url).metrics.timeout_errors = st.metrics.timeout_errors := by
  unfold noteUnique; split <;> rfl

theorem noteUnique_networkErr (st : CheckerState) (url : String) :
    (noteUnique st url).metrics.network_errors = st.metrics.network_errors := by
  unfold noteUnique; split <;> rfl

theorem noteUnique_sslErr (st : CheckerState) (url : String) :
    (noteUnique st url).metrics.ssl_errors = st.metrics.ssl_errors := by
  unfold noteUnique; split <;> rfl

theorem noteUnique_otherErr (st : CheckerState) (url : String) :
    (noteUnique st url).metrics.other_errors = st.metrics.other_errors := by
  unfold noteUnique; split <;> rfl

theorem noteUnique_session (st : CheckerState) (url : String) :
    (noteUnique st url).session_initialized = st.session_initialized := by
  unfold noteUnique; split <;> rfl

theorem noteUnique_uniqueReq_mem (st : CheckerState) (url : String)
    (h : url ∈ st.unique_urls) :
    (noteUnique st url).metrics.unique_requests = st.metrics.unique_requests := by
  unfold noteUnique
  rw [if_pos h]

theorem noteUnique_uniqueReq_notMem (st : CheckerState) (url : String)
    (h : url ∉ st.unique_urls) :
    (noteUnique st url).metrics.unique_requests =
      st.metrics.unique_requests + 1 := by
  unfold noteUnique
  rw [if_neg h]

theorem noteUnique_urls_mem (st : CheckerState) (url : String)
    (h : url ∈ st.unique_urls) :
    (noteUnique st url).unique_urls = st.unique_urls := by
  unfold noteUnique
  rw [if_pos h]

theorem noteUnique_urls_notMem (st : CheckerState) (url : String)
    (h : url ∉ st.unique_urls) :
    (noteUnique st url).unique_urls = url :: st.unique_urls := by
  unfold noteUnique
  rw [if_neg h]

theorem checkLoop_url (cfg : Config) (url : String)
    (oracle : Nat → AttemptOutcome) :
    ∀ f attempt elapsed st,
      (checkLoop cfg url oracle f attempt elapsed st).1.url = url := by
  intro f
  induction f with
  | zero => intro attempt elapsed st; rfl
  | succ f ih =>
    intro attempt elapsed st
    cases ho : oracle attempt with
    | success status finalUrl hdrs d => simp [checkLoop, ho]
    | tooManyRedirects detail d => simp [checkLoop, ho]
    | sslError detail d => simp [checkLoop, ho]
    | timeout d =>
      by_cases hf : f = 0
      · subst hf; simp [checkLoop, ho]
      · rw [checkLoop]
        rw [ho]
        simp only [if_neg hf]
        exact ih (attempt + 1) (elapsed + d) (incTotal st)
    | networkError detail d =>
      by_cases hf : f = 0
      · subst hf; simp [checkLoop, ho]
      · rw [checkLoop]
        rw [ho]
        simp only [if_neg hf]
        exact ih (attempt + 1) (elapsed + d) (incTotal st)
    | otherError detail d =>
      by_cases hf : f = 0
      · subst hf; simp [checkLoop, ho]
      · rw [checkLoop]
        rw [ho]
        simp only [if_neg hf]
        exact ih (attempt + 1) (elapsed + d) (incOther (incTotal st))

theorem safe_check_url_url (cfg : Config) (st : CheckerState) (url : String)
    (oracle : Nat → AttemptOutcome) :
    (safe_check_url cfg st url oracle).1.url = url := by
  cases hs : st.session_initialized
  · rw [safe_check_url_of_noSession cfg st url oracle hs]
  · rw [safe_check_url_of_session cfg st url oracle hs]
    exact checkLoop_url cfg url oracle cfg.max_retries 1 0 (noteUnique st url)

/-! Section: Helper lemma: reaching attempt `k` across a retried prefix -/

theorem check_url_reach (cfg : Config) (st : CheckerState) (url : String)
    (oracle : Nat → AttemptOutcome) (k f : Nat)
    (hsess : st.session_initialized = true) (hk1 : 1 ≤ k)
    (hmr : cfg.max_retries = (k - 1) + f + 1)
    (hprev : ∀ j, 1 ≤ j → j < k → (oracle j).retryable = true) :
    check_url cfg st url oracle =
      (Except.ok (checkLoop cfg url oracle (f + 1) k (sumDur oracle 1 (k - 1))
          (retryFold oracle 1 (k - 1) (noteUnique st url))).1,
       (checkLoop cfg url oracle (f + 1) k (sumDur oracle 1 (k - 1))
          (retryFold oracle 1 (k - 1) (noteUnique st url))).2,
       ([] : List Rat)) := by
  rw [check_url_of_session cfg st url oracle hsess, hmr]
  rw [checkLoop_skip cfg url oracle (k - 1) f 1 0 (noteUnique st url)
    (fun j hj1 hj2 => hprev j hj1 (by omega))]
  have e1 : 1 + (k - 1) = k := by omega
  rw [e1]
  simp

/-! Section: The claims -/

/-- Claim C1: for every ordered list of URLs, `check_urls` returns exactly
as many `CheckResult`s as inputs, the i-th result corresponding to the
i-th input URL (its `url` field is that input), and the batch never
fails as a whole: it is total by construction, every per-URL failure
being absorbed into that URL's result by the `safe_check_url` wrapper. -/
theorem claim_C1 (cfg : Config) :
    ∀ tasks st,
      (check_urls cfg st tasks).1.length = tasks.length ∧
        (check_urls cfg st tasks).1.map URLResponse.url = tasks.map Prod.fst := by
  intro tasks
  induction tasks with
  | nil => intro st; exact ⟨rfl, rfl⟩
  | cons t rest ih =>
    intro st
    rcases t with ⟨url, oracle⟩
    constructor
    · simp only [check_urls, List.length_cons, List.length]
      rw [(ih ((safe_check_url cfg st url oracle).2.1)).1]
    · simp only [check_urls, List.map_cons, List.map]
      rw [(ih ((safe_check_url cfg st url oracle).2.1)).2,
        safe_check_url_url]

/-- Claim C2: if the first `k - 1` attempts fail with retryable outcomes
and attempt `k` obtains an HTTP response object (any status code), then
`check_url` bumps `successful_requests` by one and returns immediately —
`total_requests` grows by exactly `k` — with `is_available` true iff
`200 ≤ status < 400`, `retry_count = k - 1`, `error` absent, and
headers, content type, final URL and status populated from the
response. -/
theorem claim_C2 (cfg : Config) (st : CheckerState) (url : String)
    (oracle : Nat → AttemptOutcome) (k status : Nat) (finalUrl : String)
    (hdrs : List (String × String)) (d : Nat)
    (hsess : st.session_initialized = true)
    (hk1 : 1 ≤ k) (hk2 : k ≤ cfg.max_retries)
    (hprev : ∀ j, 1 ≤ j → j < k → (oracle j).retryable = true)
    (hsucc : oracle k = .success status (some finalUrl) hdrs d) :
    ∃ r, (check_url cfg st url oracle).1 = Except.ok r ∧
      (r.is_available = true ↔ 200 ≤ status ∧ status < 400) ∧
      r.status = status ∧ r.retry_count = some (k - 1) ∧ r.error = none ∧
      r.headers = some hdrs ∧
      r.content_type = getHeader hdrs "content-type" ∧
      r.final_url = some finalUrl ∧
      (check_url cfg st url oracle).2.1.metrics.successful_requests =
        st.metrics.successful_requests + 1 ∧
      (check_url cfg st url oracle).2.1.metrics.total_requests =
        st.metrics.total_requests + k := by
  rw [check_url_reach cfg st url oracle k (cfg.max_retries - k) hsess hk1
    (by omega) hprev]
  simp only [checkLoop, hsucc]
  refine ⟨_, rfl, ?_, rfl, rfl, rfl, rfl, rfl, rfl, ?_, ?_⟩
  · simp
  · simp [incSuccessful, incTotal, retryFold_successful, noteUnique_successful]
  · simp [incSuccessful, incTotal, retryFold_total, noteUnique_total]
    omega

/-- Witness for C2: a network error on attempt 1, then a 200 response
on attempt 2. -/
theorem claim_C2_witness :
    ∃ r, (check_url cfgTwo initState "http://a.com"
        (oracleOf [.networkError "conn reset" 1, okOutcome])).1 =
          Except.ok r ∧
      (r.is_available = true ↔ 200 ≤ 200 ∧ 200 < 400) ∧
      r.status = 200 ∧ r.retry_count = some (2 - 1) ∧ r.error = none ∧
      r.headers = some [("content-type", "text/html")] ∧
      r.content_type = getHeader [("content-type", "text/html")] "content-type" ∧
      r.final_url = some "http://example.com/" ∧
      (check_url cfgTwo initState "http://a.com"
          (oracleOf [.networkError "conn reset" 1, okOutcome])).2.1.metrics.successful_requests =
        initState.metrics.successful_requests + 1 ∧
      (check_url cfgTwo initState "http://a.com"
          (oracleOf [.networkError "conn reset" 1, okOutcome])).2.1.metrics.total_requests =
        initState.metrics.total_requests + 2 :=
  claim_C2 cfgTwo initState "http://a.com"
    (oracleOf [.networkError "conn reset" 1, okOutcome]) 2 200
    "http://example.com/" [("content-type", "text/html")] 1 rfl
    (by decide) (by decide)
    (fun j hj1 hj2 => by
      have hj : j = 1 := by omega
      subst hj
      decide)
    rfl

/-- Claim C3: when all of `max_retries` attempts time out, `check_url`
returns `is_available = false`, `status = 0`, `error = "Timeout"`,
`retry_count = max_retries`, and during the call `timeout_errors` grows
by exactly 1, `failed_requests` by 1 and `total_requests` by exactly
`max_retries`. -/
theorem claim_C3 (cfg : Config) (st : CheckerState) (url : String)
    (oracle : Nat → AttemptOutcome)
    (hsess : st.session_initialized = true) (hmr : 1 ≤ cfg.max_retries)
    (hto : ∀ j, 1 ≤ j → j ≤ cfg.max_retries → ∃ d, oracle j = .timeout d) :
    ∃ r, (check_url cfg st url oracle).1 = Except.ok r ∧
      r.is_available = false ∧ r.status = 0 ∧ r.error = some "Timeout" ∧
      r.retry_count = some cfg.max_retries ∧
      (check_url cfg st url oracle).2.1.metrics.timeout_errors =
        st.metrics.timeout_errors + 1 ∧
      (check_url cfg st url oracle).2.1.metrics.failed_requests =
        st.metrics.failed_requests + 1 ∧
      (check_url cfg st url oracle).2.1.metrics.total_requests =
        st.metrics.total_requests + cfg.max_retries := by
  obtain ⟨d, hd⟩ := hto cfg.max_retries hmr le_rfl
  rw [check_url_reach cfg st url oracle cfg.max_retries 0 hsess hmr (by omega)
    (fun j hj1 hj2 => by
      obtain ⟨d', hd'⟩ := hto j hj1 (by omega)
      rw [hd']
      rfl)]
  simp only [checkLoop, hd, if_pos]
  refine ⟨_, rfl, rfl, rfl, rfl, rfl, ?_, ?_, ?_⟩
  · simp [incFailed, incTimeout, incTotal, retryFold_timeoutErr,
      noteUnique_timeoutErr]
  · simp [incFailed, incTimeout, incTotal, retryFold_failed,
      noteUnique_failed]
  · simp [incFailed, incTimeout, incTotal, retryFold_total, noteUnique_total]
    omega

/-- Witness for C3: `max_retries = 2` and two consecutive timeouts
(the spec's own concrete scenario). -/
theorem claim_C3_witness :
    ∃ r, (check_url cfgTwo initState "http://a.com"
        (oracleOf [.timeout 1, .timeout 1])).1 = Except.ok r ∧
      r.is_available = false ∧ r.status = 0 ∧ r.error = some "Timeout" ∧
      r.retry_count = some cfgTwo.max_retries ∧
      (check_url cfgTwo initState "http://a.com"
          (oracleOf [.timeout 1, .timeout 1])).2.1.metrics.timeout_errors =
        initState.metrics.timeout_errors + 1 ∧
      (check_url cfgTwo initState "http://a.com"
          (oracleOf [.timeout 1, .timeout 1])).2.1.metrics.failed_requests =
        initState.metrics.failed_requests + 1 ∧
      (check_url cfgTwo initState "http://a.com"
          (oracleOf [.timeout 1, .timeout 1])).2.1.metrics.total_requests =
        initState.metrics.total_requests + cfgTwo.max_retries :=
  claim_C3 cfgTwo initState "http://a.com" (oracleOf [.timeout 1, .timeout 1])
    rfl (by decide)
    (fun j hj1 hj2 => by
      have hj : j = 1 ∨ j = 2 := by
        have : cfgTwo.max_retries = 2 := rfl
        omega
      rcases hj with hj | hj <;> subst hj <;> exact ⟨1, rfl⟩)

/-- Claim C4: a too-many-redirects failure is never retried: whatever
`max_retries` is, `check_url` returns a terminal result immediately at
the first attempt `k` where it occurs, with `retry_count = k - 1`,
`failed_requests` incremented by 1, and `final_url` absent. -/
theorem claim_C4 (cfg : Config) (st : CheckerState) (url : String)
    (oracle : Nat → AttemptOutcome) (k : Nat) (detail : String) (d : Nat)
    (hsess : st.session_initialized = true)
    (hk1 : 1 ≤ k) (hk2 : k ≤ cfg.max_retries)
    (hprev : ∀ j, 1 ≤ j → j < k → (oracle j).retryable = true)
    (hred : oracle k = .tooManyRedirects detail d) :
    ∃ r, (check_url cfg st url oracle).1 = Except.ok r ∧
      r.is_available = false ∧ r.status = 0 ∧ r.final_url = none ∧
      r.error = some ("Too many redirects: " ++ detail) ∧
      r.retry_count = some (k - 1) ∧
      (check_url cfg st url oracle).2.1.metrics.failed_requests =
        st.metrics.failed_requests + 1 ∧
      (check_url cfg st url oracle).2.1.metrics.total_requests =
        st.metrics.total_requests + k := by
  rw [check_url_reach cfg st url oracle k (cfg.max_retries - k) hsess hk1
    (by omega) hprev]
  simp only [checkLoop, hred]
  refine ⟨_, rfl, rfl, rfl, rfl, rfl, rfl, ?_, ?_⟩
  · simp [incFailed, incTotal, retryFold_failed, noteUnique_failed]
  · simp [incFailed, incTotal, retryFold_total, noteUnique_total]
    omega

/-- Witness for C4: redirect exhaustion on the very first attempt with
`max_retries = 2`. -/
theorem claim_C4_witness :
    ∃ r, (check_url cfgTwo initState "http://redirect-loop.com"
        (oracleOf [.tooManyRedirects "loop detected" 1])).1 = Except.ok r ∧
      r.is_available = false ∧ r.status = 0 ∧ r.final_url = none ∧
      r.error = some ("Too many redirects: " ++ "loop detected") ∧
      r.retry_count = some (1 - 1) ∧
      (check_url cfgTwo initState "http://redirect-loop.com"
          (oracleOf [.tooManyRedirects "loop detected" 1])).2.1.metrics.failed_requests =
        initState.metrics.failed_requests + 1 ∧
      (check_url cfgTwo initState "http://redirect-loop.com"
          (oracleOf [.tooManyRedirects "loop detected" 1])).2.1.metrics.total_requests =
        initState.metrics.total_requests + 1 :=
  claim_C4 cfgTwo initState "http://redirect-loop.com"
    (oracleOf [.tooManyRedirects "loop detected" 1]) 1 "loop detected" 1 rfl
    (by decide) (by decide) (fun j hj1 hj2 => absurd hj2 (by omega)) rfl

/-- Claim C5 (amended): a TLS/certificate error is never retried:
`check_url` returns a terminal result immediately at the attempt `k`
where it occurs, with `ssl_errors` incremented by 1 and `retry_count =
k - 1`; `total_requests` grows by `k`, so in particular exactly one
attempt is recorded and `retry_count = 0` when the TLS error occurs on
the first attempt. (The claim as stated — exactly one recorded attempt
and `retry_count = 0` unconditionally — is refuted by
`claim_C5_counterexample`, where a timeout precedes the TLS error.) -/
theorem claim_C5 (cfg : Config) (st : CheckerState) (url : String)
    (oracle : Nat → AttemptOutcome) (k : Nat) (detail : String) (d : Nat)
    (hsess : st.session_initialized = true)
    (hk1 : 1 ≤ k) (hk2 : k ≤ cfg.max_retries)
    (hprev : ∀ j, 1 ≤ j → j < k → (oracle j).retryable = true)
    (hssl : oracle k = .sslError detail d) :
    ∃ r, (check_url cfg st url oracle).1 = Except.ok r ∧
      r.is_available = false ∧ r.status = 0 ∧
      r.error = some ("SSL error: " ++ detail) ∧
      r.retry_count = some (k - 1) ∧
      (check_url cfg st url oracle).2.1.metrics.ssl_errors =
        st.metrics.ssl_errors + 1 ∧
      (check_url cfg st url oracle).2.1.metrics.total_requests =
        st.metrics.total_requests + k := by
  rw [check_url_reach cfg st url oracle k (cfg.max_retries - k) hsess hk1
    (by omega) hprev]
  simp only [checkLoop, hssl]
  refine ⟨_, rfl, rfl, rfl, rfl, rfl, ?_, ?_⟩
  · simp [incSsl, incTotal, retryFold_sslErr, noteUnique_sslErr]
  · simp [incSsl, incTotal, retryFold_total, noteUnique_total]
    omega

/-- Counterexample to claim C5: a timeout on attempt 1 followed by a TLS
error on attempt 2: the call records two attempts (`total_requests`
grows by 2, not 1) and returns `retry_count = 1`, not 0, refuting the
claim as stated. -/
theorem claim_C5_counterexample :
    (check_url cfgTwo initState "http://a.com"
        (oracleOf [.timeout 1, .sslError "bad cert" 1])).2.1.metrics.ssl_errors = 1 ∧
      (check_url cfgTwo initState "http://a.com"
        (oracleOf [.timeout 1, .sslError "bad cert" 1])).2.1.metrics.total_requests = 2 ∧
      (check_url cfgTwo initState "http://a.com"
        (oracleOf [.timeout 1, .sslError "bad cert" 1])).1 =
        Except.ok
          { url := "http://a.com", status := 0, is_available := false,
            final_url := none, error := some "SSL error: bad cert",
            response_time := some 2, retry_count := some 1 } :=
  ⟨by decide, by decide, rfl⟩

/-- Witness for C5: a TLS error on the first attempt. -/
theorem claim_C5_witness :
    ∃ r, (check_url cfgTwo initState "http://ssl.com"
        (oracleOf [.sslError "handshake" 1])).1 = Except.ok r ∧
      r.is_available = false ∧ r.status = 0 ∧
      r.error = some ("SSL error: " ++ "handshake") ∧
      r.retry_count = some (1 - 1) ∧
      (check_url cfgTwo initState "http://ssl.com"
          (oracleOf [.sslError "handshake" 1])).2.1.metrics.ssl_errors =
        initState.metrics.ssl_errors + 1 ∧
      (check_url cfgTwo initState "http://ssl.com"
          (oracleOf [.sslError "handshake" 1])).2.1.metrics.total_requests =
        initState.metrics.total_requests + 1 :=
  claim_C5 cfgTwo initState "http://ssl.com" (oracleOf [.sslError "handshake" 1])
    1 "handshake" 1 rfl (by decide) (by decide)
    (fun j hj1 hj2 => absurd hj2 (by omega)) rfl

/-- Claim C6 (amended): on an unclassified error the checker increments
`other_errors` on *every* such attempt, retried ones included; when the
failing attempt is the last allowed one it returns a terminal result
with `error` = the error detail and `retry_count = max_retries`,
*without* incrementing `failed_requests`. (The claim as stated — the
counters recorded only on the last attempt, and `failed_requests`
incremented — is refuted by `claim_C6_counterexample`.) -/
theorem claim_C6 (cfg : Config) (st : CheckerState) (url : String)
    (oracle : Nat → AttemptOutcome) (detail : String) (d : Nat)
    (hsess : st.session_initialized = true) (hmr : 1 ≤ cfg.max_retries)
    (hprev : ∀ j, 1 ≤ j → j < cfg.max_retries → (oracle j).retryable = true)
    (hoth : oracle cfg.max_retries = .otherError detail d) :
    ∃ r, (check_url cfg st url oracle).1 = Except.ok r ∧
      r.is_available = false ∧ r.status = 0 ∧ r.error = some detail ∧
      r.retry_count = some cfg.max_retries ∧
      (check_url cfg st url oracle).2.1.metrics.other_errors =
        st.metrics.other_errors +
          countOther oracle 1 (cfg.max_retries - 1) + 1 ∧
      (check_url cfg st url oracle).2.1.metrics.failed_requests =
        st.metrics.failed_requests ∧
      (check_url cfg st url oracle).2.1.metrics.total_requests =
        st.metrics.total_requests + cfg.max_retries := by
  rw [check_url_reach cfg st url oracle cfg.max_retries 0 hsess hmr (by omega)
    hprev]
  simp only [checkLoop, hoth, if_pos]
  refine ⟨_, rfl, rfl, rfl, rfl, rfl, ?_, ?_, ?_⟩
  · simp [incOther, incTotal, retryFold_other, noteUnique_otherErr]
  · simp [incOther, incTotal, retryFold_failed, noteUnique_failed]
  · simp [incOther, incTotal, retryFold_total, noteUnique_total]
    omega

/-- Counterexample to claim C6: two unclassified errors with
`max_retries = 2`: `other_errors` ends at 2 — so the non-last attempt 1
also incremented it — and `failed_requests` stays 0 although the call
ended in a terminal unclassified failure, refuting both parts of the
claim as stated. -/
theorem claim_C6_counterexample :
    (check_url cfgTwo initState "http://a.com"
        (oracleOf [.otherError "boom" 1, .otherError "boom2" 1])).2.1.metrics.other_errors = 2 ∧
      (check_url cfgTwo initState "http://a.com"
        (oracleOf [.otherError "boom" 1, .otherError "boom2" 1])).2.1.metrics.failed_requests = 0 ∧
      (check_url cfgTwo initState "http://a.com"
        (oracleOf [.otherError "boom" 1, .otherError "boom2" 1])).1 =
        Except.ok
          { url := "http://a.com", status := 0, is_available := false,
            final_url := none, error := some "boom2", response_time := some 2,
            retry_count := some 2 } :=
  ⟨by decide, by decide, rfl⟩

/-- Witness for C6: an unclassified error retried once, then another on
the last attempt. -/
theorem claim_C6_witness :
    ∃ r, (check_url cfgTwo initState "http://a.com"
        (oracleOf [.otherError "weird" 1, .otherError "boom" 2])).1 =
          Except.ok r ∧
      r.is_available = false ∧ r.status = 0 ∧ r.error = some "boom" ∧
      r.retry_count = some cfgTwo.max_retries ∧
      (check_url cfgTwo initState "http://a.com"
          (oracleOf [.otherError "weird" 1, .otherError "boom" 2])).2.1.metrics.other_errors =
        initState.metrics.other_errors +
          countOther (oracleOf [.otherError "weird" 1, .otherError "boom" 2]) 1
            (cfgTwo.max_retries - 1) + 1 ∧
      (check_url cfgTwo initState "http://a.com"
          (oracleOf [.otherError "weird" 1, .otherError "boom" 2])).2.1.metrics.failed_requests =
        initState.metrics.failed_requests ∧
      (check_url cfgTwo initState "http://a.com"
          (oracleOf [.otherError "weird" 1, .otherError "boom" 2])).2.1.metrics.total_requests =
        initState.metrics.total_requests + cfgTwo.max_retries :=
  claim_C6 cfgTwo initState "http://a.com"
    (oracleOf [.otherError "weird" 1, .otherError "boom" 2]) "boom" 2 rfl
    (by decide)
    (fun j hj1 hj2 => by
      have hj : j = 1 := by
        have : cfgTwo.max_retries = 2 := rfl
        omega
      subst hj
      decide)
    rfl

/-- Claim C7 (amended): every `CheckResult` that `check_url` itself
returns carries `response_time`, equal to the elapsed time from the
start of attempt 1 to the terminal outcome: the sum of the durations of
exactly the attempts performed — whose count is what `total_requests`
grew by — including all retries. (The claim as stated, covering also
the wrapper's fallback results, is refuted by
`claim_C7_counterexample`.) -/
theorem claim_C7 (cfg : Config) (st : CheckerState) (url : String)
    (oracle : Nat → AttemptOutcome)
    (hsess : st.session_initialized = true) :
    ∀ r, (check_url cfg st url oracle).1 = Except.ok r →
      r.response_time = some (sumDur oracle 1 (attemptsUsed cfg oracle)) ∧
        (check_url cfg st url oracle).2.1.metrics.total_requests =
          st.metrics.total_requests + attemptsUsed cfg oracle := by
  intro r hr
  rw [check_url_of_session cfg st url oracle hsess] at hr ⊢
  simp only [Except.ok.injEq] at hr
  subst hr
  have ht := checkLoop_time_total cfg url oracle cfg.max_retries 1 0
    (noteUnique st url)
  constructor
  · rw [ht.1]
    simp [attemptsUsed]
  · rw [ht.2, noteUnique_total]
    rfl

/-- Counterexample to claim C7: a `CheckResult` produced by the checker — the
fallback `safe_check_url` builds when `check_url` raises on an
uninitialized session — has no `response_time`, refuting the claim that
it is always present. -/
theorem claim_C7_counterexample :
    (safe_check_url cfgDflt stNoSession "http://a.com"
      (oracleOf [])).1.response_time = none := by
  decide

/-- Witness for C7: one timed-out attempt (duration 2) then a successful
one (duration 1); the result's `response_time` is 3 and two attempts
are recorded. -/
theorem claim_C7_witness :
    ({ url := "http://a.com", status := 200, is_available := true,
       final_url := some "http://example.com/", error := none,
       headers := some [("content-type", "text/html")],
       content_type := some "text/html", response_time := some 3,
       retry_count := some 1 } : URLResponse).response_time =
        some (sumDur (oracleOf [.timeout 2, okOutcome]) 1
          (attemptsUsed cfgTwo (oracleOf [.timeout 2, okOutcome]))) ∧
      (check_url cfgTwo initState "http://a.com"
          (oracleOf [.timeout 2, okOutcome])).2.1.metrics.total_requests =
        initState.metrics.total_requests +
          attemptsUsed cfgTwo (oracleOf [.timeout 2, okOutcome]) :=
  claim_C7 cfgTwo initState "http://a.com" (oracleOf [.timeout 2, okOutcome])
    rfl
    { url := "http://a.com", status := 200, is_available := true,
      final_url := some "http://example.com/", error := none,
      headers := some [("content-type", "text/html")],
      content_type := some "text/html", response_time := some 3,
      retry_count := some 1 } rfl

/-- Claim C8 (amended): `check_url` performs no backoff delay at all — no
sleep inside the retry loop (a retried attempt re-enters immediately)
and none from the tenacity decorator, whose exponential wait never
fires because the retryable exception types cannot escape the loop; the
configured `retry_multiplier`/`retry_min_delay`/`retry_max_delay` are
stored but unused. (The claim as stated is refuted by
`claim_C8_counterexample`.) -/
theorem claim_C8 (cfg : Config) (st : CheckerState) (url : String)
    (oracle : Nat → AttemptOutcome) :
    (check_url cfg st url oracle).2.2 = ([] : List Rat) := by
  rw [check_url_eq]

/-- Counterexample to claim C8: a run that retries (two attempts recorded
for one URL) during which no sleep is performed, refuting that an
exponential-backoff delay precedes every retried attempt. -/
theorem claim_C8_counterexample :
    (check_url cfgTwo initState "http://a.com"
        (oracleOf [.timeout 1, .timeout 1])).2.1.metrics.total_requests = 2 ∧
      (check_url cfgTwo initState "http://a.com"
        (oracleOf [.timeout 1, .timeout 1])).2.2 = ([] : List Rat) := by
  decide

/-- Claim C9: `check_url` raises to its caller exactly when the session is
not initialized, and `safe_check_url` converts any exception escaping
`check_url` into a terminal `CheckResult` with `status = 0`, `error` =
the exception message, `retry_count = max_retries`, incrementing
`failed_requests`. -/
theorem claim_C9 (cfg : Config) (st : CheckerState) (url : String)
    (oracle : Nat → AttemptOutcome) :
    ((∃ e, (check_url cfg st url oracle).1 = Except.error e) ↔
        st.session_initialized = false) ∧
      ∀ e, (check_url cfg st url oracle).1 = Except.error e →
        (safe_check_url cfg st url oracle).1 =
            { url := url, status := 0, is_available := false,
              final_url := none, error := some e.message,
              retry_count := some cfg.max_retries } ∧
          (safe_check_url cfg st url oracle).2.1.metrics.failed_requests =
            (check_url cfg st url oracle).2.1.metrics.failed_requests + 1 := by
  constructor
  · constructor
    · rintro ⟨e, he⟩
      cases hs : st.session_initialized
      · rfl
      · rw [check_url_of_session cfg st url oracle hs] at he
        exact absurd he (by simp)
    · intro hs
      exact ⟨_, by rw [check_url_of_noSession cfg st url oracle hs]⟩
  · intro e he
    rcases hc : check_url cfg st url oracle with ⟨r, st1, tr⟩
    rw [hc] at he
    simp only at he
    subst he
    refine ⟨?_, ?_⟩
    · simp [safe_check_url, hc]
    · simp [safe_check_url, hc, incFailed]

/-- Witness for C9 at a concrete uninitialized-session input. -/
theorem claim_C9_witness :
    (safe_check_url cfgDflt stNoSession "http://a.com" (oracleOf [])).1 =
        { url := "http://a.com", status := 0, is_available := false,
          final_url := none,
          error := some "Session not initialized. Use async with context manager",
          retry_count := some cfgDflt.max_retries } ∧
      (safe_check_url cfgDflt stNoSession "http://a.com"
          (oracleOf [])).2.1.metrics.failed_requests =
        (check_url cfgDflt stNoSession "http://a.com"
          (oracleOf [])).2.1.metrics.failed_requests + 1 :=
  (claim_C9 cfgDflt stNoSession "http://a.com" (oracleOf [])).2
    (.runtimeError "Session not initialized. Use async with context manager")
    rfl

/-! Section: Helper lemmas for the lifetime metrics claim -/

theorem noteUnique_mem (st : CheckerState) (url u : String) :
    u ∈ (noteUnique st url).unique_urls ↔ u = url ∨ u ∈ st.unique_urls := by
  unfold noteUnique
  split
  · rename_i h
    constructor
    · intro hu; exact Or.inr hu
    · rintro (rfl | hu)
      · exact h
      · exact hu
  · simp [List.mem_cons]

theorem noteUnique_nodup (st : CheckerState) (url : String)
    (h : st.unique_urls.Nodup) : (noteUnique st url).unique_urls.Nodup := by
  unfold noteUnique
  split
  · exact h
  · rename_i hmem
    exact List.nodup_cons.mpr ⟨hmem, h⟩

theorem noteUnique_count (st : CheckerState) (url : String)
    (h : st.metrics.unique_requests = st.unique_urls.length) :
    (noteUnique st url).metrics.unique_requests =
      (noteUnique st url).unique_urls.length := by
  unfold noteUnique
  split <;> simp [h]

theorem check_url_state_of_session (cfg : Config) (st : CheckerState)
    (url : String) (oracle : Nat → AttemptOutcome)
    (h : st.session_initialized = true) :
    (check_url cfg st url oracle).2.1.unique_urls =
        (noteUnique st url).unique_urls ∧
      (check_url cfg st url oracle).2.1.session_initialized =
        st.session_initialized ∧
      (check_url cfg st url oracle).2.1.metrics.unique_requests =
        (noteUnique st url).metrics.unique_requests ∧
      (check_url cfg st url oracle).2.1.metrics.total_requests =
        st.metrics.total_requests + attemptsUsed cfg oracle := by
  rw [check_url_of_session cfg st url oracle h]
  have hp := checkLoop_preserve cfg url oracle cfg.max_retries 1 0
    (noteUnique st url)
  have ht := checkLoop_time_total cfg url oracle cfg.max_retries 1 0
    (noteUnique st url)
  refine ⟨hp.1, ?_, hp.2.2, ?_⟩
  · rw [hp.2.1, noteUnique_session]
  · rw [ht.2, noteUnique_total]
    rfl

theorem runChecks_facts (cfg : Config) :
    ∀ calls st, st.session_initialized = true →
      (runChecks cfg st calls).session_initialized = true ∧
        (runChecks cfg st calls).metrics.total_requests =
          st.metrics.total_requests +
            (calls.map (fun c => attemptsUsed cfg c.2)).sum ∧
        (∀ u, u ∈ (runChecks cfg st calls).unique_urls ↔
          u ∈ st.unique_urls ∨ u ∈ calls.map Prod.fst) ∧
        (st.unique_urls.Nodup → (runChecks cfg st calls).unique_urls.Nodup) ∧
        (st.unique_urls.Nodup →
          st.metrics.unique_requests = st.unique_urls.length →
          (runChecks cfg st calls).metrics.unique_requests =
            (runChecks cfg st calls).unique_urls.length) := by
  intro calls
  induction calls with
  | nil =>
    intro st h
    refine ⟨h, by simp [runChecks], by simp [runChecks], fun hn => hn,
      fun _ hc => hc⟩
  | cons c rest ih =>
    intro st h
    rcases c with ⟨url, oracle⟩
    have hstep := check_url_state_of_session cfg st url oracle h
    have hsess1 : (check_url cfg st url oracle).2.1.session_initialized = true := by
      rw [hstep.2.1, h]
    have hr := ih (check_url cfg st url oracle).2.1 hsess1
    have hrun : runChecks cfg st ((url, oracle) :: rest) =
        runChecks cfg (check_url cfg st url oracle).2.1 rest := rfl
    rw [hrun]
    refine ⟨hr.1, ?_, ?_, ?_, ?_⟩
    · rw [hr.2.1, hstep.2.2.2]
      simp [Nat.add_assoc]
    · intro u
      rw [hr.2.2.1 u, hstep.1, noteUnique_mem]
      simp [List.mem_cons]
      tauto
    · intro hn
      exact hr.2.2.2.1 (by rw [hstep.1]; exact noteUnique_nodup st url hn)
    · intro hn hc
      refine hr.2.2.2.2 ?_ ?_
      · rw [hstep.1]; exact noteUnique_nodup st url hn
      · rw [hstep.1, hstep.2.2.1]
        exact noteUnique_count st url hc

/-- Claim C10: over an instance's lifetime, `unique_requests` grows by
exactly 1 the first time each distinct URL string is checked and never
again for that string — after any sequence of checks from a fresh
instance it equals the number of distinct URLs submitted — while
`total_requests` grows by 1 for every attempt (by `attemptsUsed` per
call, i.e. their sum over the lifetime). -/
theorem claim_C10 (cfg : Config) :
    (∀ st url oracle, st.session_initialized = true →
      (url ∈ st.unique_urls →
          (check_url cfg st url oracle).2.1.metrics.unique_requests =
            st.metrics.unique_requests) ∧
        (url ∉ st.unique_urls →
          (check_url cfg st url oracle).2.1.metrics.unique_requests =
            st.metrics.unique_requests + 1) ∧
        url ∈ (check_url cfg st url oracle).2.1.unique_urls ∧
        (∀ v, v ∈ st.unique_urls →
          v ∈ (check_url cfg st url oracle).2.1.unique_urls) ∧
        (check_url cfg st url oracle).2.1.metrics.total_requests =
          st.metrics.total_requests + attemptsUsed cfg oracle) ∧
      ∀ calls,
        (runChecks cfg initState calls).metrics.unique_requests =
            (calls.map Prod.fst).dedup.length ∧
          (runChecks cfg initState calls).metrics.total_requests =
            (calls.map (fun c => attemptsUsed cfg c.2)).sum := by
  constructor
  · intro st url oracle h
    have hstep := check_url_state_of_session cfg st url oracle h
    refine ⟨?_, ?_, ?_, ?_, hstep.2.2.2⟩
    · intro hmem
      rw [hstep.2.2.1, noteUnique_uniqueReq_mem st url hmem]
    · intro hmem
      rw [hstep.2.2.1, noteUnique_uniqueReq_notMem st url hmem]
    · rw [hstep.1, noteUnique_mem]
      exact Or.inl rfl
    · intro v hv
      rw [hstep.1, noteUnique_mem]
      exact Or.inr hv
  · intro calls
    have hf := runChecks_facts cfg calls initState rfl
    constructor
    · rw [hf.2.2.2.2 List.nodup_nil rfl]
      have hperm : (runChecks cfg initState calls).unique_urls.Perm
          (calls.map Prod.fst).dedup := by
        rw [List.perm_ext_iff_of_nodup (hf.2.2.2.1 List.nodup_nil)
          (List.nodup_dedup _)]
        intro u
        rw [hf.2.2.1 u, List.mem_dedup]
        simp [initState]
      exact hperm.length_eq
    · rw [hf.2.1]
      simp [initState]

/-- Witness for C10: three checks of two distinct URLs on a fresh
instance give `unique_requests = 2`; a first check of an unseen URL
bumps `unique_requests` from 0 to 1. -/
theorem claim_C10_witness :
    (check_url cfgTwo initState "http://a.com"
        (oracleOf [okOutcome])).2.1.metrics.unique_requests = 1 ∧
      (runChecks cfgTwo initState
          [("http://a.com", oracleOf [okOutcome]),
           ("http://b.com", oracleOf [okOutcome]),
           ("http://a.com", oracleOf [okOutcome])]).metrics.unique_requests = 2 := by
  constructor
  · exact ((claim_C10 cfgTwo).1 initState "http://a.com"
      (oracleOf [okOutcome]) rfl).2.1 (by decide)
  · rw [((claim_C10 cfgTwo).2
      [("http://a.com", oracleOf [okOutcome]),
       ("http://b.com", oracleOf [okOutcome]),
       ("http://a.com", oracleOf [okOutcome])]).1]
    decide

end Checker
